import Mathlib

/-!
Verification of `core/common/models/index_builder/faiss/faiss_index_hnsw_cagra_builder.py`
from the remote-vector-index-builder repository.

The Python file is embedded shallowly: Python exceptions become the inductive
`PyExc` (with `raise E from cause` as the `excFrom` constructor), mutable object
fields become explicit state records threaded through the translated method
bodies, and calls into the external faiss library become outcomes drawn from an
environment record of optional errors (an external call either succeeds or
raises the error the environment supplies).
-/

namespace CagraBuilder

/-- A Python exception value: either an `IOError` (alias of `OSError`) with a
message, a plain `Exception` with a message, or an `Exception` raised with
`raise Exception(msg) from cause`, which records the original cause in
`__cause__`. -/
inductive PyExc where
  | ioErr (msg : String) : PyExc
  | exc (msg : String) : PyExc
  | excFrom (msg : String) (cause : PyExc) : PyExc
deriving DecidableEq

/-- `str(e)` of a Python exception: its message. -/
def PyExc.pymsg : PyExc → String
  | .ioErr m => m
  | .exc m => m
  | .excFrom m _ => m

/-- The `__cause__` attribute set by `raise ... from cause`. -/
def PyExc.pyCause : PyExc → Option PyExc
  | .excFrom _ c => some c
  | _ => none

/-- Whether the exception would be caught by `except IOError`. A wrapped
`Exception` is not an `IOError` even when its cause is one. -/
def PyExc.isIOError : PyExc → Bool
  | .ioErr _ => true
  | _ => false

/-- Modelled from the spec: the `DataType` enum of
`core/common/models/index_build_parameters.py` (the module is not under src/);
the spec describes it as the enum with values FLOAT and BINARY. -/
inductive DataType where
  | FLOAT : DataType
  | BINARY : DataType
deriving DecidableEq

/-- The `FaissIndexHNSWCagraBuilder` dataclass: four fields with the defaults
written in the source (lines 27-39). -/
structure FaissIndexHNSWCagraBuilder where
  ef_search : Int := 100
  ef_construction : Int := 100
  base_level_only : Bool := true
  vector_dtype : DataType := DataType.FLOAT
deriving DecidableEq

/-- The builder produced by the zero-argument constructor `cls()`: every field
takes its dataclass default. -/
def builderDefaults : FaissIndexHNSWCagraBuilder := {}

/-- A Python keyword-argument dictionary as passed to `from_dict`, restricted
to the shapes the dataclass constructor inspects: for each of the four named
fields, whether the key is present (and its value), plus the list of any other
keys present in the dictionary. -/
structure Kwargs where
  ef_search : Option Int := none
  ef_construction : Option Int := none
  base_level_only : Option Bool := none
  vector_dtype : Option DataType := none
  unknownKeys : List String := []
deriving DecidableEq

/-- Python truthiness of the dictionary: `not params` holds exactly when the
dictionary has no keys at all. -/
def Kwargs.isEmptyDict (ps : Kwargs) : Bool :=
  ps.ef_search.isNone && ps.ef_construction.isNone && ps.base_level_only.isNone
    && ps.vector_dtype.isNone && ps.unknownKeys.isEmpty

/-- `from_dict` (source lines 41-57): `if not params: return cls()` and
otherwise `return cls(**params)`. The dataclass-generated constructor fills
missing keywords with the field defaults and raises `TypeError` on any keyword
that is not a declared field. -/
def from_dict (params : Option Kwargs) :
    Except PyExc FaissIndexHNSWCagraBuilder :=
  match params with
  | none => .ok builderDefaults
  | some ps =>
    if ps.isEmptyDict then .ok builderDefaults
    else
      match ps.unknownKeys with
      | k :: _ =>
        .error (.exc ("TypeError: __init__() got an unexpected keyword argument " ++ k))
      | [] =>
        .ok { ef_search := ps.ef_search.getD builderDefaults.ef_search
              ef_construction := ps.ef_construction.getD builderDefaults.ef_construction
              base_level_only := ps.base_level_only.getD builderDefaults.base_level_only
              vector_dtype := ps.vector_dtype.getD builderDefaults.vector_dtype }

/-- The `hnsw` sub-object of a faiss HNSW index, with its two expansion-factor
fields. -/
structure HNSWParams where
  efConstruction : Int
  efSearch : Int
deriving DecidableEq

/-- A CPU-resident faiss index as observed by this file: its identity `id`
(which allocation produced it), whether it belongs to the binary family
(`faiss.IndexBinaryHNSWCagra`) or the standard one (`faiss.IndexHNSWCagra`),
its `hnsw` parameters, its `base_level_only` flag, and whether `copyTo` has
populated it from a GPU index. -/
structure CpuIndex where
  id : Nat
  isBinary : Bool
  hnsw : HNSWParams
  base_level_only : Bool
  copiedFromGpu : Bool
deriving DecidableEq

/-- `faiss.IndexHNSWCagra()`: a fresh standard-family CPU index. The numeric
fields start at the faiss HNSW defaults; every claim-relevant field is
overwritten by the builder before use. -/
def newIndexHNSWCagra (id : Nat) : CpuIndex :=
  { id := id, isBinary := false
    hnsw := { efConstruction := 40, efSearch := 16 }
    base_level_only := false, copiedFromGpu := false }

/-- `faiss.IndexBinaryHNSWCagra()`: a fresh binary-family CPU index. -/
def newIndexBinaryHNSWCagra (id : Nat) : CpuIndex :=
  { id := id, isBinary := true
    hnsw := { efConstruction := 40, efSearch := 16 }
    base_level_only := false, copiedFromGpu := false }

/-- A reference held by the identifier-mapping wrapper: either a GPU index or
a CPU index, each named by its allocation identity. -/
inductive IndexRef where
  | gpu (id : Nat) : IndexRef
  | cpu (id : Nat) : IndexRef
deriving DecidableEq

/-- The mutable state touched by the conversion methods: the single `index`
field of the identifier-mapping wrapper (`IndexIDMap` / `IndexBinaryIDMap`),
whether the GPU bundle `index_id_map` field still holds that wrapper object,
and how many times `cleanup` has been invoked on the GPU bundle. -/
structure GpuConvState where
  wrapperIndex : Option IndexRef
  bundleHoldsWrapper : Bool
  gpuCleanupCount : Nat
deriving DecidableEq

/-- Source line 75 / 110: `faiss_gpu_build_index_output.index_id_map.index = None`. -/
def stepNullWrapperRef (s : GpuConvState) : GpuConvState :=
  { s with wrapperIndex := none }

/-- Source line 81 / 116: `faiss_gpu_build_index_output.index_id_map = None`,
moving the wrapper object out of the GPU bundle field (the local variable bound
at line 78 / 113 keeps the only remaining reference to it). -/
def stepMoveWrapperOut (s : GpuConvState) : GpuConvState :=
  { s with bundleHoldsWrapper := false }

/-- Source line 83 / 118: `index_id_map.index = cpu_index`. -/
def stepSetWrapperCpu (cpuId : Nat) (s : GpuConvState) : GpuConvState :=
  { s with wrapperIndex := some (IndexRef.cpu cpuId) }

/-- Modelled from the spec: `FaissGpuBuildIndexOutput.cleanup` (the class lives
in `core/common/models/index_builder`, not under src/). The spec says it
releases the bundle resources and must only be called once; the embedding
records each invocation in a counter. -/
def gpuCleanup (s : GpuConvState) : GpuConvState :=
  { s with gpuCleanupCount := s.gpuCleanupCount + 1 }

/-- The sequence of heap states produced by the ownership-relocation lines
75, 81, 83 (and 110, 116, 118 in the binary branch), in source order, starting
from the state before line 75. -/
def relocTrace (cpuId : Nat) (s : GpuConvState) : List GpuConvState :=
  [ s
  , stepNullWrapperRef s
  , stepMoveWrapperOut (stepNullWrapperRef s)
  , stepSetWrapperCpu cpuId (stepMoveWrapperOut (stepNullWrapperRef s)) ]

/-- Outcomes of the external faiss calls made during one conversion: for each
fallible call, `none` means it returns normally and `some e` means it raises
`e`. `cpuId` is the identity of the freshly allocated CPU index. -/
structure ConvEnv where
  allocErr : Option PyExc := none
  configErr : Option PyExc := none
  copyErr : Option PyExc := none
  cleanupErr : Option PyExc := none
  cpuId : Nat := 0
deriving DecidableEq

/-- The `FaissCpuBuildIndexOutput` returned on success: it bundles the new CPU
index with the re-homed wrapper object (whose mutable `index` field lives in
the final `GpuConvState`). -/
structure FaissCpuBuildIndexOutput where
  cpu_index : CpuIndex
deriving DecidableEq

/-- Everything a conversion method call yields: the post-call `self`, the
post-call heap state, and either the returned bundle or the raised exception. -/
structure ConvResult where
  self : FaissIndexHNSWCagraBuilder
  state : GpuConvState
  out : Except PyExc FaissCpuBuildIndexOutput

/-- Source lines 91-94 and 126-129: `raise Exception("Failed to convert GPU
index to CPU index: " + str(e)) from e`. This is the conversion-failure
exception the spec names ConversionError. -/
def conversionError (cause : PyExc) : PyExc :=
  .excFrom ("Failed to convert GPU index to CPU index: " ++ cause.pymsg) cause

/-- `_do_convert_gpu_to_cpu_index` (source lines 59-94). The whole body sits in
a `try` whose handler wraps any exception as `conversionError`; the fallible
external calls are the CPU index allocation (line 64), the swig attribute
configuration (lines 67-69), `copyTo` (line 72) and `cleanup` (line 86). The
relocation assignments (lines 75-83) are plain Python attribute and local
assignments and cannot raise. -/
def do_convert_gpu_to_cpu_index (self : FaissIndexHNSWCagraBuilder)
    (env : ConvEnv) (s : GpuConvState) : ConvResult :=
  -- line 64: cpu_index = faiss.IndexHNSWCagra()
  match env.allocErr with
  | some e => { self := self, state := s, out := .error (conversionError e) }
  | none =>
  let cpu_index := newIndexHNSWCagra env.cpuId
  -- lines 67-69: configure CPU index parameters
  match env.configErr with
  | some e => { self := self, state := s, out := .error (conversionError e) }
  | none =>
  let cpu_index :=
    { cpu_index with hnsw := { cpu_index.hnsw with efConstruction := self.ef_construction } }
  let cpu_index :=
    { cpu_index with hnsw := { cpu_index.hnsw with efSearch := self.ef_search } }
  let cpu_index := { cpu_index with base_level_only := self.base_level_only }
  -- line 72: faiss_gpu_build_index_output.gpu_index.copyTo(cpu_index)
  match env.copyErr with
  | some e => { self := self, state := s, out := .error (conversionError e) }
  | none =>
  let cpu_index := { cpu_index with copiedFromGpu := true }
  -- line 75: faiss_gpu_build_index_output.index_id_map.index = None
  let s := stepNullWrapperRef s
  -- lines 78, 81: index_id_map = ...; faiss_gpu_build_index_output.index_id_map = None
  let s := stepMoveWrapperOut s
  -- line 83: index_id_map.index = cpu_index
  let s := stepSetWrapperCpu env.cpuId s
  -- line 86: faiss_gpu_build_index_output.cleanup()
  let s := gpuCleanup s
  match env.cleanupErr with
  | some e => { self := self, state := s, out := .error (conversionError e) }
  | none =>
  -- lines 88-90: return FaissCpuBuildIndexOutput(cpu_index=..., index_id_map=...)
  { self := self, state := s, out := .ok { cpu_index := cpu_index } }

/-- `_do_convert_gpu_to_cpu_binary_index` (source lines 96-129): the same step
sequence against the binary-family types (`faiss.IndexBinaryHNSWCagra`,
`IndexBinaryIDMap`), with the identical exception handler. -/
def do_convert_gpu_to_cpu_binary_index (self : FaissIndexHNSWCagraBuilder)
    (env : ConvEnv) (s : GpuConvState) : ConvResult :=
  -- line 101: cpu_index = faiss.IndexBinaryHNSWCagra()
  match env.allocErr with
  | some e => { self := self, state := s, out := .error (conversionError e) }
  | none =>
  let cpu_index := newIndexBinaryHNSWCagra env.cpuId
  -- lines 102-104: configure CPU index parameters
  match env.configErr with
  | some e => { self := self, state := s, out := .error (conversionError e) }
  | none =>
  let cpu_index :=
    { cpu_index with hnsw := { cpu_index.hnsw with efConstruction := self.ef_construction } }
  let cpu_index :=
    { cpu_index with hnsw := { cpu_index.hnsw with efSearch := self.ef_search } }
  let cpu_index := { cpu_index with base_level_only := self.base_level_only }
  -- line 107: faiss_gpu_build_index_output.gpu_index.copyTo(cpu_index)
  match env.copyErr with
  | some e => { self := self, state := s, out := .error (conversionError e) }
  | none =>
  let cpu_index := { cpu_index with copiedFromGpu := true }
  -- line 110: faiss_gpu_build_index_output.index_id_map.index = None
  let s := stepNullWrapperRef s
  -- lines 113, 116: index_id_map = ...; faiss_gpu_build_index_output.index_id_map = None
  let s := stepMoveWrapperOut s
  -- line 118: index_id_map.index = cpu_index
  let s := stepSetWrapperCpu env.cpuId s
  -- line 121: faiss_gpu_build_index_output.cleanup()
  let s := gpuCleanup s
  match env.cleanupErr with
  | some e => { self := self, state := s, out := .error (conversionError e) }
  | none =>
  -- lines 123-125: return FaissCpuBuildIndexOutput(cpu_index=..., index_id_map=...)
  { self := self, state := s, out := .ok { cpu_index := cpu_index } }

/-- `convert_gpu_to_cpu_index` (source lines 131-151): dispatch on
`self.vector_dtype != DataType.BINARY`. -/
def convert_gpu_to_cpu_index (self : FaissIndexHNSWCagraBuilder)
    (env : ConvEnv) (s : GpuConvState) : ConvResult :=
  if self.vector_dtype ≠ DataType.BINARY then
    do_convert_gpu_to_cpu_index self env s
  else
    do_convert_gpu_to_cpu_binary_index self env s

/-- Which faiss serialization routine a write call invoked. -/
inductive WriterKind where
  | standard : WriterKind
  | binary : WriterKind
deriving DecidableEq

/-- Outcomes of the external calls made during one write: the faiss writer
(`write_index` / `write_index_binary`) and the CPU bundle `cleanup`. -/
structure WriteEnv where
  writeErr : Option PyExc := none
  cleanupErr : Option PyExc := none
deriving DecidableEq

/-- Modelled from the spec: the mutable state of a `FaissCpuBuildIndexOutput`
bundle as the serializer sees it; `cleanup` (the class lives in
`core/common/models/index_builder`, not under src/) releases the bundle
resources, and the embedding counts its invocations. -/
structure CpuBundleState where
  cleanupCount : Nat
deriving DecidableEq

/-- Everything a `write_cpu_index` call yields: the post-call `self`, the
post-call CPU bundle state, which writer was invoked, and the raised exception
when the call fails. -/
structure WriteResult where
  self : FaissIndexHNSWCagraBuilder
  state : CpuBundleState
  writerCalled : Option WriterKind
  err : Option PyExc

/-- Source lines 182-185: the `except IOError` handler,
`raise Exception("Failed to write index to file " + path + ": " + str(io_error))
from io_error`. -/
def serializationIOError (path : String) (cause : PyExc) : PyExc :=
  .excFrom ("Failed to write index to file " ++ path ++ ": " ++ cause.pymsg) cause

/-- Source lines 186-189: the `except Exception` handler,
`raise Exception("Unexpected error while writing index to file: " + str(e))
from e`. -/
def serializationUnexpectedError (cause : PyExc) : PyExc :=
  .excFrom ("Unexpected error while writing index to file: " ++ cause.pymsg) cause

/-- The two `except` clauses of `write_cpu_index` in order: `except IOError`
first, then `except Exception`. -/
def wrapWriteExc (path : String) (cause : PyExc) : PyExc :=
  if cause.isIOError then serializationIOError path cause
  else serializationUnexpectedError cause

/-- `write_cpu_index` (source lines 153-189). Inside the `try`: the dtype
dispatch selects `faiss.write_index` (line 173) or `faiss.write_index_binary`
(line 177); only when the writer returns does line 181 run
`cpu_build_index_output.cleanup()`. Any exception escaping the `try` is
wrapped by the two `except` clauses. -/
def write_cpu_index (self : FaissIndexHNSWCagraBuilder) (env : WriteEnv)
    (s : CpuBundleState) (cpu_index_output_file_path : String) : WriteResult :=
  -- lines 172-179: dispatch and invoke the writer
  let wk := if self.vector_dtype ≠ DataType.BINARY then WriterKind.standard
            else WriterKind.binary
  match env.writeErr with
  | some e =>
    -- the writer raised; cleanup at line 181 is never reached
    { self := self, state := s, writerCalled := some wk
      err := some (wrapWriteExc cpu_index_output_file_path e) }
  | none =>
  -- line 181: cpu_build_index_output.cleanup()
  let s := { s with cleanupCount := s.cleanupCount + 1 }
  match env.cleanupErr with
  | some e =>
    { self := self, state := s, writerCalled := some wk
      err := some (wrapWriteExc cpu_index_output_file_path e) }
  | none =>
    { self := self, state := s, writerCalled := some wk, err := none }

/-- The first external-call error a conversion run raises, in execution order:
allocation, configuration, copy, cleanup. -/
def firstConvErr (env : ConvEnv) : Option PyExc :=
  match env.allocErr with
  | some e => some e
  | none =>
    match env.configErr with
    | some e => some e
    | none =>
      match env.copyErr with
      | some e => some e
      | none => env.cleanupErr

/-- The first external-call error a write run raises, in execution order:
writer, cleanup. -/
def firstWriteErr (env : WriteEnv) : Option PyExc :=
  match env.writeErr with
  | some e => some e
  | none => env.cleanupErr

/-- Whether an optional wrapper reference points at some GPU index. -/
def refersToGpu : Option IndexRef → Bool
  | some (IndexRef.gpu _) => true
  | _ => false

/-- A sample intact GPU bundle state: the wrapper references GPU index 5, the
bundle still holds the wrapper, cleanup has not run. -/
def sampleGpuState : GpuConvState :=
  { wrapperIndex := some (IndexRef.gpu 5), bundleHoldsWrapper := true
    gpuCleanupCount := 0 }

/-- A sample environment where the GPU-to-CPU copy raises. -/
def envCopyFail : ConvEnv := { copyErr := some (PyExc.exc "boom") }

/-- A sample environment where the faiss writer raises an IOError, as a write
to a nonexistent directory would. -/
def envWriteFailIO : WriteEnv :=
  { writeErr := some (PyExc.ioErr "No such file or directory") }

/-- The CPU bundle a default-parameter conversion of `sampleGpuState` under
the all-success environment returns. -/
def sampleCpuOut : FaissCpuBuildIndexOutput :=
  { cpu_index :=
    { id := 0, isBinary := false
      hnsw := { efConstruction := 100, efSearch := 100 }
      base_level_only := true, copiedFromGpu := true } }

/-- C9: `from_dict(None)` and `from_dict` of the empty mapping both yield the
builder with ef_search = 100, ef_construction = 100, base_level_only = true
and vector_dtype = FLOAT. -/
theorem c9_from_dict_defaults :
    from_dict none =
      .ok { ef_search := 100, ef_construction := 100, base_level_only := true
            vector_dtype := DataType.FLOAT } ∧
    from_dict (some {}) =
      .ok { ef_search := 100, ef_construction := 100, base_level_only := true
            vector_dtype := DataType.FLOAT } :=
  ⟨rfl, rfl⟩

/-- C8: for every keyword mapping, construction fills each unspecified field
with its documented default, and a mapping holding any key outside the four
named fields yields a construction-time TypeError. -/
theorem c8_from_dict_unknown_keys (ps : Kwargs) :
    from_dict (some ps) =
      match ps.unknownKeys with
      | [] =>
        .ok { ef_search := ps.ef_search.getD 100
              ef_construction := ps.ef_construction.getD 100
              base_level_only := ps.base_level_only.getD true
              vector_dtype := ps.vector_dtype.getD DataType.FLOAT }
      | k :: _ =>
        .error (.exc ("TypeError: __init__() got an unexpected keyword argument " ++ k)) := by
  rcases ps with ⟨es, ec, blo, dt, uk⟩
  unfold from_dict
  by_cases he : Kwargs.isEmptyDict ⟨es, ec, blo, dt, uk⟩
  · simp only [Kwargs.isEmptyDict, Bool.and_eq_true, Option.isNone_iff_eq_none,
      List.isEmpty_iff] at he
    obtain ⟨⟨⟨⟨h1, h2⟩, h3⟩, h4⟩, h5⟩ := he
    subst h1; subst h2; subst h3; subst h4; subst h5
    rfl
  · simp only [he, if_false]
    cases uk <;> rfl

/-- C10: neither conversion nor serialization mutates the builder itself; the
four configuration fields are unchanged on every path, success or failure. -/
theorem c10_builder_unchanged (b : FaissIndexHNSWCagraBuilder) (env : ConvEnv)
    (s : GpuConvState) (wenv : WriteEnv) (ws : CpuBundleState) (path : String) :
    (convert_gpu_to_cpu_index b env s).self = b ∧
    (write_cpu_index b wenv ws path).self = b := by
  constructor
  · rcases env with ⟨a, c, cp, cl, i⟩
    unfold convert_gpu_to_cpu_index do_convert_gpu_to_cpu_index
      do_convert_gpu_to_cpu_binary_index
    by_cases hd : b.vector_dtype = DataType.BINARY <;>
      simp only [hd, ne_eq, not_true_eq_false, not_false_eq_true, if_true, if_false,
        ite_true, ite_false] <;>
      cases a <;> cases c <;> cases cp <;> cases cl <;> rfl
  · rcases wenv with ⟨w, cl⟩
    unfold write_cpu_index
    cases w <;> cases cl <;> rfl

/-- C1 counterexample: with the default builder, a CPU bundle whose cleanup
counter starts at 0, and a writer call that raises an IOError (as a write into
a nonexistent directory does), `write_cpu_index` raises but the bundle cleanup
count stays 0, not the 1 the claim requires: the CPU bundle is not released on
the failing path. -/
theorem c1_counterexample_no_release_on_failure :
    ((write_cpu_index {} envWriteFailIO { cleanupCount := 0 }
        "/nonexistent/index.bin").err).isSome = true ∧
    ¬ (write_cpu_index {} envWriteFailIO { cleanupCount := 0 }
        "/nonexistent/index.bin").state.cleanupCount = 1 := by
  constructor
  · rfl
  · intro h
    simp only [write_cpu_index, envWriteFailIO] at h
    exact absurd h (by decide)

/-- C1 amended: `write_cpu_index` invokes the CPU bundle cleanup exactly once
when the faiss writer call returns, and not at all when the writer raises; the
call raises iff the writer or the cleanup raises. -/
theorem c1_cleanup_only_after_successful_write (b : FaissIndexHNSWCagraBuilder)
    (env : WriteEnv) (s : CpuBundleState) (path : String) :
    (write_cpu_index b env s path).state.cleanupCount =
      s.cleanupCount + (if env.writeErr = none then 1 else 0) ∧
    ((write_cpu_index b env s path).err = none ↔
      env.writeErr = none ∧ env.cleanupErr = none) := by
  rcases env with ⟨w, cl⟩
  unfold write_cpu_index
  cases w <;> cases cl <;> simp

/-- Both serialization handlers preserve the original exception as the cause,
and their messages separate the IOError branch from the unexpected branch. -/
lemma wrapWriteExc_spec (path : String) (c : PyExc) :
    (wrapWriteExc path c).pyCause = some c ∧
    (wrapWriteExc path c).pymsg =
      (if c.isIOError = true then
        "Failed to write index to file " ++ path ++ ": " ++ c.pymsg
      else "Unexpected error while writing index to file: " ++ c.pymsg) := by
  unfold wrapWriteExc serializationIOError serializationUnexpectedError
  by_cases hio : c.isIOError <;> simp [hio, PyExc.pyCause, PyExc.pymsg]

/-- A write raises exactly the serialization wrapping of its first external
error. -/
lemma write_err_eq (b : FaissIndexHNSWCagraBuilder) (env : WriteEnv)
    (s : CpuBundleState) (path : String) :
    (write_cpu_index b env s path).err =
      (firstWriteErr env).map (wrapWriteExc path) := by
  rcases env with ⟨w, cl⟩
  cases w <;> cases cl <;> rfl

/-- C3: every exception a failing `write_cpu_index` raises is the wrapped
serialization failure of the first external error: it preserves that original
error as the cause, and its message distinguishes IOError causes (prefixed with
the file path) from unexpected causes. -/
theorem c3_serialization_error_wraps_cause (b : FaissIndexHNSWCagraBuilder)
    (env : WriteEnv) (s : CpuBundleState) (path : String) (E c : PyExc)
    (h : (write_cpu_index b env s path).err = some E)
    (hc : firstWriteErr env = some c) :
    E = wrapWriteExc path c ∧
    E.pyCause = some c ∧
    E.pymsg =
      (if c.isIOError = true then
        "Failed to write index to file " ++ path ++ ": " ++ c.pymsg
      else "Unexpected error while writing index to file: " ++ c.pymsg) := by
  rw [write_err_eq, hc] at h
  simp only [Option.map_some', Option.some.injEq] at h
  subst h
  exact ⟨rfl, (wrapWriteExc_spec path c).1, (wrapWriteExc_spec path c).2⟩

/-- C3 witness: the theorem applied to the default builder, the IOError-raising
writer environment, and the exception that run raises. -/
theorem c3_witness :
    serializationIOError "/out/index.bin" (PyExc.ioErr "No such file or directory") =
      wrapWriteExc "/out/index.bin" (PyExc.ioErr "No such file or directory") ∧
    (serializationIOError "/out/index.bin"
        (PyExc.ioErr "No such file or directory")).pyCause =
      some (PyExc.ioErr "No such file or directory") ∧
    (serializationIOError "/out/index.bin"
        (PyExc.ioErr "No such file or directory")).pymsg =
      (if (PyExc.ioErr "No such file or directory").isIOError = true then
        "Failed to write index to file " ++ "/out/index.bin" ++ ": " ++
          (PyExc.ioErr "No such file or directory").pymsg
      else "Unexpected error while writing index to file: " ++
          (PyExc.ioErr "No such file or directory").pymsg) :=
  c3_serialization_error_wraps_cause {} envWriteFailIO { cleanupCount := 0 }
    "/out/index.bin" _ _ rfl rfl

/-- A conversion raises iff one of its external calls raises, and then its
exception is exactly the conversion wrapping of the first such error. -/
lemma convert_error_iff (b : FaissIndexHNSWCagraBuilder) (env : ConvEnv)
    (s : GpuConvState) (E : PyExc) :
    (convert_gpu_to_cpu_index b env s).out = .error E ↔
      (firstConvErr env).map conversionError = some E := by
  rcases env with ⟨a, c, cp, cl, i⟩
  unfold convert_gpu_to_cpu_index do_convert_gpu_to_cpu_index
    do_convert_gpu_to_cpu_binary_index firstConvErr
  by_cases hd : b.vector_dtype = DataType.BINARY <;>
    simp only [hd, ne_eq, not_true_eq_false, not_false_eq_true, if_true, if_false,
      ite_true, ite_false] <;>
    cases a <;> cases c <;> cases cp <;> cases cl <;> simp

/-- C2: whenever any external step of the conversion raises (allocation,
configuration, GPU-to-CPU copy, or GPU cleanup), `convert_gpu_to_cpu_index`
raises the conversion wrapping of the first such error, preserving the original
exception as its cause; the `Except` result carries no bundle on this path. -/
theorem c2_conversion_error_wraps_cause (b : FaissIndexHNSWCagraBuilder)
    (env : ConvEnv) (s : GpuConvState) (E : PyExc)
    (h : (convert_gpu_to_cpu_index b env s).out = .error E) :
    (firstConvErr env).map conversionError = some E ∧
    E.pyCause = firstConvErr env := by
  have h1 := (convert_error_iff b env s E).mp h
  refine ⟨h1, ?_⟩
  cases hfc : firstConvErr env with
  | none => rw [hfc] at h1; simp at h1
  | some c0 =>
    rw [hfc] at h1
    simp only [Option.map_some', Option.some.injEq] at h1
    subst h1
    simp [conversionError, PyExc.pyCause]

/-- C2 witness: the theorem applied to the default builder, the environment
where the GPU-to-CPU copy raises, and the exception that run raises. -/
theorem c2_witness :
    (firstConvErr envCopyFail).map conversionError =
      some (conversionError (PyExc.exc "boom")) ∧
    (conversionError (PyExc.exc "boom")).pyCause = firstConvErr envCopyFail :=
  c2_conversion_error_wraps_cause {} envCopyFail sampleGpuState _ rfl

/-- A successful conversion returns the CPU index built from the builder
fields, and its final heap state is the relocation sequence followed by the
GPU cleanup. -/
lemma convert_ok_spec (b : FaissIndexHNSWCagraBuilder) (env : ConvEnv)
    (s : GpuConvState) (out : FaissCpuBuildIndexOutput)
    (h : (convert_gpu_to_cpu_index b env s).out = .ok out) :
    out.cpu_index =
      { id := env.cpuId
        isBinary := if b.vector_dtype = DataType.BINARY then true else false
        hnsw := { efConstruction := b.ef_construction, efSearch := b.ef_search }
        base_level_only := b.base_level_only
        copiedFromGpu := true } ∧
    (convert_gpu_to_cpu_index b env s).state =
      gpuCleanup (stepSetWrapperCpu env.cpuId
        (stepMoveWrapperOut (stepNullWrapperRef s))) := by
  rcases env with ⟨a, c, cp, cl, i⟩
  unfold convert_gpu_to_cpu_index do_convert_gpu_to_cpu_index
    do_convert_gpu_to_cpu_binary_index at h ⊢
  by_cases hd : b.vector_dtype = DataType.BINARY <;>
    simp only [hd, ne_eq, not_true_eq_false, not_false_eq_true, if_true, if_false,
      ite_true, ite_false] at h ⊢ <;>
    cases a <;> cases c <;> cases cp <;> cases cl <;>
    simp_all [newIndexHNSWCagra, newIndexBinaryHNSWCagra] <;>
    rw [← h]

/-- C4: starting from a state whose wrapper references the GPU index, the
relocation lines run in the order null-out, move-out, repoint; the wrapper
reference trace is GPU, none, none, CPU, so after the null-out no state of the
sequence references the GPU index through the wrapper (and the single
reference field holds at most one index at any instant); and both conversion
bodies reach their final state by exactly this step sequence followed by the
GPU cleanup. -/
theorem c4_relocation_order (b : FaissIndexHNSWCagraBuilder) (cid g : Nat)
    (s : GpuConvState) (h : s.wrapperIndex = some (IndexRef.gpu g)) :
    (relocTrace cid s).map GpuConvState.wrapperIndex =
      [some (IndexRef.gpu g), none, none, some (IndexRef.cpu cid)] ∧
    ((relocTrace cid s).tail.all fun t => !refersToGpu t.wrapperIndex) = true ∧
    (do_convert_gpu_to_cpu_index b { cpuId := cid } s).state =
      gpuCleanup (stepSetWrapperCpu cid (stepMoveWrapperOut (stepNullWrapperRef s))) ∧
    (do_convert_gpu_to_cpu_binary_index b { cpuId := cid } s).state =
      gpuCleanup (stepSetWrapperCpu cid (stepMoveWrapperOut (stepNullWrapperRef s))) := by
  refine ⟨?_, ?_, rfl, rfl⟩
  · simp [relocTrace, stepNullWrapperRef, stepMoveWrapperOut, stepSetWrapperCpu, h]
  · simp [relocTrace, stepNullWrapperRef, stepMoveWrapperOut, stepSetWrapperCpu,
      refersToGpu]

/-- C4 witness: the theorem applied to the default builder and the sample
intact GPU bundle state. -/
theorem c4_witness :
    (relocTrace 0 sampleGpuState).map GpuConvState.wrapperIndex =
      [some (IndexRef.gpu 5), none, none, some (IndexRef.cpu 0)] ∧
    ((relocTrace 0 sampleGpuState).tail.all
      fun t => !refersToGpu t.wrapperIndex) = true ∧
    (do_convert_gpu_to_cpu_index {} { cpuId := 0 } sampleGpuState).state =
      gpuCleanup (stepSetWrapperCpu 0
        (stepMoveWrapperOut (stepNullWrapperRef sampleGpuState))) ∧
    (do_convert_gpu_to_cpu_binary_index {} { cpuId := 0 } sampleGpuState).state =
      gpuCleanup (stepSetWrapperCpu 0
        (stepMoveWrapperOut (stepNullWrapperRef sampleGpuState))) :=
  c4_relocation_order {} 0 5 sampleGpuState rfl

/-- C5: after a successful conversion, the returned bundle holds the freshly
allocated CPU index, the re-homed wrapper references exactly that CPU index,
the GPU bundle field no longer holds the wrapper, and the GPU cleanup has run
exactly once. -/
theorem c5_ownership_after_success (b : FaissIndexHNSWCagraBuilder)
    (env : ConvEnv) (s : GpuConvState) (out : FaissCpuBuildIndexOutput)
    (h : (convert_gpu_to_cpu_index b env s).out = .ok out)
    (h0 : s.gpuCleanupCount = 0) :
    out.cpu_index.id = env.cpuId ∧
    (convert_gpu_to_cpu_index b env s).state.wrapperIndex =
      some (IndexRef.cpu env.cpuId) ∧
    (convert_gpu_to_cpu_index b env s).state.bundleHoldsWrapper = false ∧
    (convert_gpu_to_cpu_index b env s).state.gpuCleanupCount = 1 := by
  obtain ⟨ho, hs⟩ := convert_ok_spec b env s out h
  refine ⟨by rw [ho], ?_, ?_, ?_⟩ <;>
    simp [hs, gpuCleanup, stepSetWrapperCpu, stepMoveWrapperOut,
      stepNullWrapperRef, h0]

/-- C5 witness: the theorem applied to the default builder, the all-success
environment, and the sample intact GPU bundle state. -/
theorem c5_witness :
    sampleCpuOut.cpu_index.id = ({} : ConvEnv).cpuId ∧
    (convert_gpu_to_cpu_index {} {} sampleGpuState).state.wrapperIndex =
      some (IndexRef.cpu ({} : ConvEnv).cpuId) ∧
    (convert_gpu_to_cpu_index {} {} sampleGpuState).state.bundleHoldsWrapper = false ∧
    (convert_gpu_to_cpu_index {} {} sampleGpuState).state.gpuCleanupCount = 1 :=
  c5_ownership_after_success {} {} sampleGpuState sampleCpuOut rfl rfl

/-- C6: conversion and serialization dispatch on the vector dtype together:
the CPU index a successful conversion returns is binary-family exactly when
the dtype is BINARY, and the write call invokes the binary writer exactly when
the dtype is BINARY and the standard writer otherwise. -/
theorem c6_dtype_dispatch (b : FaissIndexHNSWCagraBuilder) (env : ConvEnv)
    (s : GpuConvState) (wenv : WriteEnv) (ws : CpuBundleState) (path : String)
    (out : FaissCpuBuildIndexOutput)
    (h : (convert_gpu_to_cpu_index b env s).out = .ok out) :
    out.cpu_index.isBinary =
      (if b.vector_dtype = DataType.BINARY then true else false) ∧
    (write_cpu_index b wenv ws path).writerCalled =
      some (if b.vector_dtype = DataType.BINARY then WriterKind.binary
            else WriterKind.standard) := by
  obtain ⟨ho, -⟩ := convert_ok_spec b env s out h
  refine ⟨by rw [ho], ?_⟩
  rcases wenv with ⟨w, cl⟩
  unfold write_cpu_index
  by_cases hd : b.vector_dtype = DataType.BINARY <;>
    simp only [hd, ne_eq, not_true_eq_false, not_false_eq_true, if_true, if_false,
      ite_true, ite_false] <;>
    cases w <;> cases cl <;> rfl

/-- C6 witness: the theorem applied to the default (FLOAT) builder, the
all-success environments and the sample GPU bundle state. -/
theorem c6_witness :
    sampleCpuOut.cpu_index.isBinary =
      (if ({} : FaissIndexHNSWCagraBuilder).vector_dtype = DataType.BINARY
       then true else false) ∧
    (write_cpu_index {} {} { cleanupCount := 0 } "/out/index.bin").writerCalled =
      some (if ({} : FaissIndexHNSWCagraBuilder).vector_dtype = DataType.BINARY
            then WriterKind.binary else WriterKind.standard) :=
  c6_dtype_dispatch {} {} sampleGpuState {} { cleanupCount := 0 }
    "/out/index.bin" sampleCpuOut rfl

/-- C7: the CPU index a successful conversion returns carries the supplied
ef_search, ef_construction and base_level_only values unchanged, in both the
float and the binary branch. -/
theorem c7_parameter_propagation (b : FaissIndexHNSWCagraBuilder)
    (env : ConvEnv) (s : GpuConvState) (out : FaissCpuBuildIndexOutput)
    (h : (convert_gpu_to_cpu_index b env s).out = .ok out) :
    out.cpu_index.hnsw.efSearch = b.ef_search ∧
    out.cpu_index.hnsw.efConstruction = b.ef_construction ∧
    out.cpu_index.base_level_only = b.base_level_only := by
  obtain ⟨ho, -⟩ := convert_ok_spec b env s out h
  rw [ho]
  exact ⟨rfl, rfl, rfl⟩

/-- C7 witness: the theorem applied to the default builder, the all-success
environment and the sample GPU bundle state. -/
theorem c7_witness :
    sampleCpuOut.cpu_index.hnsw.efSearch =
      ({} : FaissIndexHNSWCagraBuilder).ef_search ∧
    sampleCpuOut.cpu_index.hnsw.efConstruction =
      ({} : FaissIndexHNSWCagraBuilder).ef_construction ∧
    sampleCpuOut.cpu_index.base_level_only =
      ({} : FaissIndexHNSWCagraBuilder).base_level_only :=
  c7_parameter_propagation {} {} sampleGpuState sampleCpuOut rfl

end CagraBuilder
